import Mathlib

/-!
Shallow embedding of the cc-switch configuration-switching engine
(src-tauri/src: commands.rs, app_config.rs, provider.rs, wsl_env.rs,
settings.rs) and proofs about its claims.

JSON values (serde_json::Value) are modelled by an inductive `Json`
covering the constructors the engine inspects; hash maps are modelled
as association lists with lookup/insert/remove helpers; fallible file
I/O is modelled by explicit success flags and `Except` results.
-/

namespace CCSwitch

mutual

/-- Model of serde_json::Value restricted to the shapes the engine
inspects: `get` on objects and `as_str` on strings. -/
inductive Json where
  | null : Json
  | bool (b : Bool) : Json
  | str (s : String) : Json
  | num (n : Int) : Json
  | obj (fields : JsonFields) : Json
  deriving DecidableEq, Repr

/-- Field list of a JSON object (key/value bindings in order). -/
inductive JsonFields where
  | nil : JsonFields
  | cons (k : String) (v : Json) (tl : JsonFields) : JsonFields
  deriving DecidableEq, Repr

end

/-- Lookup of a key among object fields (first binding wins). -/
def JsonFields.get : JsonFields → String → Option Json
  | .nil, _ => none
  | .cons k' v t, k => if k' = k then some v else t.get k

/-- serde_json::Value::get on an object. -/
def Json.get : Json → String → Option Json
  | .obj fields, k => fields.get k
  | _, _ => none

/-- serde_json::Value::as_str. -/
def Json.asStr : Json → Option String
  | .str s => some s
  | _ => none

/-- Error taxonomy of the engine (the Rust code returns human-readable
strings; these constructors name the distinct conditions). -/
inductive Err where
  | NotFound : Err
  | InvalidOperation : Err
  | MissingField : Err
  | LiveConfigMissing : Err
  | IOError : Err
  | MalformedStore : Err
  | AppKindNotFound : Err
  | MissingDistroConfig : Err
  | ExternalToolError : Err
  deriving DecidableEq, Repr

/-- provider.rs: Provider. `settings_config` is the opaque payload. -/
structure Provider where
  id : String
  name : String
  settings_config : Json
  website_url : Option String := none
  category : Option String := none
  created_at : Option Int := none
  deriving DecidableEq, Repr

/-- provider.rs: Provider::with_id. -/
def Provider.withId (id name : String) (settings_config : Json)
    (website_url : Option String) : Provider :=
  { id := id, name := name, settings_config := settings_config,
    website_url := website_url, category := none, created_at := none }

/-- Association-list model of HashMap<String, Provider>: lookup
(HashMap::get / contains_key). -/
def aLookup : List (String × Provider) → String → Option Provider
  | [], _ => none
  | (k', v) :: t, k => if k' = k then some v else aLookup t k

/-- Drop every binding of key `k` (the removal part of HashMap
insert/remove semantics). -/
def aErase : List (String × Provider) → String → List (String × Provider)
  | [], _ => []
  | e :: t, k => if e.1 = k then aErase t k else e :: aErase t k

/-- HashMap::insert: the map now sends `k` to `v`, other keys unchanged. -/
def aInsert (m : List (String × Provider)) (k : String) (v : Provider) :
    List (String × Provider) :=
  (k, v) :: aErase m k

/-- HashMap::remove: the map no longer binds `k`, other keys unchanged. -/
def aRemove (m : List (String × Provider)) (k : String) :
    List (String × Provider) :=
  aErase m k

/-- get_mut + in-place mutation: apply `f` to the value bound to `k`
when present, leave the map unchanged otherwise. -/
def aAdjust : List (String × Provider) → String → (Provider → Provider) →
    List (String × Provider)
  | [], _, _ => []
  | e :: t, k, f => (if e.1 = k then (e.1, f e.2) else e) :: aAdjust t k f

/-- provider.rs: ProviderManager (one registry: providers + current). -/
structure ProviderManager where
  providers : List (String × Provider)
  current : String
  deriving DecidableEq, Repr

/-- provider.rs: ProviderManager::default (empty map, empty current). -/
def ProviderManager.defaultPM : ProviderManager :=
  { providers := [], current := "" }

/-- app_config.rs: AppType, the closed two-variant application kind. -/
inductive AppType where
  | claude : AppType
  | codex : AppType
  deriving DecidableEq, Repr

/-- app_config.rs: AppType::as_str. -/
def AppType.asStr : AppType → String
  | .claude => "claude"
  | .codex => "codex"

/-- str::to_lowercase, character-wise (kernel-computable form). -/
def strToLower (s : String) : String :=
  String.mk (s.data.map Char.toLower)

/-- app_config.rs: impl From<&str> for AppType — "codex"
(case-insensitively) maps to Codex, every other string to Claude. -/
def AppType.ofStr (s : String) : AppType :=
  if strToLower s = "codex" then .codex else .claude

/-- app_config.rs: Settings stored inside the config store wrapper. -/
structure Settings where
  show_in_tray : Bool := true
  minimize_to_tray_on_close : Bool := true
  deriving DecidableEq, Repr

/-- Association-list lookup for the apps map of the store. -/
def mLookup : List (String × ProviderManager) → String → Option ProviderManager
  | [], _ => none
  | (k', v) :: t, k => if k' = k then some v else mLookup t k

/-- app_config.rs: MultiAppConfig — version + settings + one
ProviderManager per application-kind key. -/
structure MultiAppConfig where
  version : Nat
  settings : Settings
  apps : List (String × ProviderManager)
  deriving DecidableEq, Repr

/-- app_config.rs: MultiAppConfig::default — version 2, default
settings, empty claude and codex registries. -/
def MultiAppConfig.defaultCfg : MultiAppConfig :=
  { version := 2, settings := {},
    apps := [("claude", ProviderManager.defaultPM),
             ("codex", ProviderManager.defaultPM)] }

/-- app_config.rs: MultiAppConfig::get_manager. -/
def MultiAppConfig.getManager (c : MultiAppConfig) (a : AppType) :
    Option ProviderManager :=
  mLookup c.apps a.asStr

/-- Live state of the Codex dual-file pair: content of auth.json and of
config.toml (`none` = file absent). -/
structure CodexLive where
  auth : Option Json
  cfg : Option String
  deriving DecidableEq, Repr

/-- Modelled from the spec: `read_codex_config_text_at` lives in
codex_config.rs, which is absent from src/. §4.3 step 1 reads the live
configuration-text file verbatim; a missing file is a read failure. -/
def readCodexConfigTextAt : Option String → Except Err String
  | some t => .ok t
  | none => .error .IOError

/-- Modelled from the spec: `read_and_validate_config_from_path_at`
lives in codex_config.rs, absent from src/. §6 import reads the live
configuration text (validation of well-formed text is elided: every
present text is accepted verbatim, a missing file is a read failure). -/
def readAndValidateConfigFromPathAt : Option String → Except Err String
  | some t => .ok t
  | none => .error .IOError

/-- Modelled from the spec: `write_codex_live_atomic_at` lives in
codex_config.rs, absent from src/. §4.3 steps 2–3 for the dual-file
kind: fail with MissingField before touching disk when the required
configuration text is absent, snapshot the first file, write the
authentication file then the configuration file, and on failure of the
second write restore the first file's pre-write content before
returning the error. `wAuthOk`/`wCfgOk` inject faults into the two
physical writes. Returns the final pair state and the outcome. -/
def writeCodexLiveAtomicAt (auth : Json) (cfgText : Option String)
    (live : CodexLive) (wAuthOk wCfgOk : Bool) :
    CodexLive × Except Err Unit :=
  match cfgText with
  | none => (live, .error .MissingField)
  | some t =>
    let snapshot := live.auth
    if wAuthOk then
      let live1 : CodexLive := { live with auth := some auth }
      if wCfgOk then
        ({ live1 with cfg := some t }, .ok ())
      else
        ({ live1 with auth := snapshot }, .error .IOError)
    else
      (live, .error .IOError)

/-- commands.rs: serde_json::json!({"auth": a, "config": c}) — the
payload stored for a Codex provider. -/
def mkCodexPayload (auth : Json) (cfgStr : String) : Json :=
  .obj (.cons "auth" auth (.cons "config" (.str cfgStr) .nil))

deriving instance DecidableEq for Except

/-- Outcome of an operation on the Codex registry: final registry,
final live pair, whether AppState::save was invoked, and the result. -/
structure CodexOutcome where
  manager : ProviderManager
  live : CodexLive
  saved : Bool
  result : Except Err Unit
  deriving DecidableEq, Repr

/-- Outcome of an operation on the Claude registry: final registry,
final content of the live settings file, whether AppState::save was
invoked, and the result. -/
structure ClaudeOutcome where
  manager : ProviderManager
  live : Option Json
  saved : Bool
  result : Except Err Unit
  deriving DecidableEq, Repr

/-- commands.rs lines 300–318: the backfill step of the Codex switch —
when a provider is current and the live auth.json exists, read the
live pair and store it verbatim into the outgoing provider's payload
in memory (a read failure aborts the switch). -/
def codexBackfill (m : ProviderManager) (live : CodexLive) :
    Except Err ProviderManager :=
  if m.current = "" then .ok m
  else
    match live.auth with
    | none => .ok m
    | some authLive =>
      match readCodexConfigTextAt live.cfg with
      | .error e => .error e
      | .ok cfgStr =>
        let upd := fun (cur : Provider) =>
          { cur with settings_config := mkCodexPayload authLive cfgStr }
        .ok { m with providers := aAdjust m.providers m.current upd }

/-- commands.rs lines 340–347: the backfill step of the Claude switch —
when the live settings file exists and a provider is current, store
the live content into the outgoing provider's payload in memory (a
read error is swallowed; reads of an existing file succeed here). -/
def claudeBackfill (m : ProviderManager) (live : Option Json) :
    ProviderManager :=
  match live with
  | some liveJson =>
    if m.current = "" then m
    else
      let upd := fun (cur : Provider) =>
        { cur with settings_config := liveJson }
      { m with providers := aAdjust m.providers m.current upd }
  | none => m

/-- commands.rs: switch_provider (lines 267–369), Codex branch. `live`
is the state of the resolved dual-file pair; `wAuthOk`/`wCfgOk` inject
faults into the two live writes. Reads of an existing file succeed and
return its content. -/
def switchProviderCodex (m : ProviderManager) (live : CodexLive)
    (id : String) (wAuthOk wCfgOk : Bool) : CodexOutcome :=
  match aLookup m.providers id with
  | none => ⟨m, live, false, .error .NotFound⟩
  | some provider =>
    match codexBackfill m live with
    | .error e => ⟨m, live, false, .error e⟩
    | .ok m1 =>
      match provider.settings_config.get "auth" with
      | none => ⟨m1, live, false, .error .MissingField⟩
      | some auth =>
        let cfgText := (provider.settings_config.get "config").bind Json.asStr
        match writeCodexLiveAtomicAt auth cfgText live wAuthOk wCfgOk with
        | (live1, .error e) => ⟨m1, live1, false, .error e⟩
        | (live1, .ok _) => ⟨{ m1 with current := id }, live1, true, .ok ()⟩

/-- commands.rs: switch_provider, Claude branch. `live` is the content
of the resolved settings file (`none` = absent); the backfill is
skipped when the file is absent or no provider is current, and a
backfill read error is swallowed (reads of an existing file succeed in
this model). `writeOk` injects a fault into directory creation + live
write. -/
def switchProviderClaude (m : ProviderManager) (live : Option Json)
    (id : String) (writeOk : Bool) : ClaudeOutcome :=
  match aLookup m.providers id with
  | none => ⟨m, live, false, .error .NotFound⟩
  | some provider =>
    let m1 := claudeBackfill m live
    if writeOk then
      ⟨{ m1 with current := id }, some provider.settings_config, true, .ok ()⟩
    else
      ⟨m1, live, false, .error .IOError⟩

/-- commands.rs: add_provider (lines 67–132), Claude branch: when the
incoming provider's id equals current, the live file is written first
and the registry is only updated and persisted if that write succeeds. -/
def addProviderClaude (m : ProviderManager) (live : Option Json)
    (p : Provider) (writeOk : Bool) : ClaudeOutcome :=
  if m.current = p.id then
    if writeOk then
      ⟨{ m with providers := aInsert m.providers p.id p },
       some p.settings_config, true, .ok ()⟩
    else ⟨m, live, false, .error .IOError⟩
  else
    ⟨{ m with providers := aInsert m.providers p.id p }, live, true, .ok ()⟩

/-- commands.rs: add_provider, Codex branch: when the target is the
active provider, extract auth (MissingField when absent) and run the
dual-file atomic write before touching the registry. -/
def addProviderCodex (m : ProviderManager) (live : CodexLive)
    (p : Provider) (wAuthOk wCfgOk : Bool) : CodexOutcome :=
  if m.current = p.id then
    match p.settings_config.get "auth" with
    | none => ⟨m, live, false, .error .MissingField⟩
    | some auth =>
      let cfgText := (p.settings_config.get "config").bind Json.asStr
      match writeCodexLiveAtomicAt auth cfgText live wAuthOk wCfgOk with
      | (live1, .error e) => ⟨m, live1, false, .error e⟩
      | (live1, .ok _) =>
        ⟨{ m with providers := aInsert m.providers p.id p }, live1, true, .ok ()⟩
  else
    ⟨{ m with providers := aInsert m.providers p.id p }, live, true, .ok ()⟩

/-- commands.rs: update_provider (lines 136–203), Claude branch: fails
NotFound when the id is absent; otherwise behaves like add_provider
(live-write-first when the target is current, then registry update and
persistence). The live write goes to the default local path, see the
path-level model below. -/
def updateProviderClaude (m : ProviderManager) (live : Option Json)
    (p : Provider) (writeOk : Bool) : ClaudeOutcome :=
  if (aLookup m.providers p.id).isNone then
    ⟨m, live, false, .error .NotFound⟩
  else if m.current = p.id then
    if writeOk then
      ⟨{ m with providers := aInsert m.providers p.id p },
       some p.settings_config, true, .ok ()⟩
    else ⟨m, live, false, .error .IOError⟩
  else
    ⟨{ m with providers := aInsert m.providers p.id p }, live, true, .ok ()⟩

/-- commands.rs: update_provider, Codex branch: NotFound when the id is
absent; else like add_provider's Codex branch. -/
def updateProviderCodex (m : ProviderManager) (live : CodexLive)
    (p : Provider) (wAuthOk wCfgOk : Bool) : CodexOutcome :=
  if (aLookup m.providers p.id).isNone then
    ⟨m, live, false, .error .NotFound⟩
  else if m.current = p.id then
    match p.settings_config.get "auth" with
    | none => ⟨m, live, false, .error .MissingField⟩
    | some auth =>
      let cfgText := (p.settings_config.get "config").bind Json.asStr
      match writeCodexLiveAtomicAt auth cfgText live wAuthOk wCfgOk with
      | (live1, .error e) => ⟨m, live1, false, .error e⟩
      | (live1, .ok _) =>
        ⟨{ m with providers := aInsert m.providers p.id p }, live1, true, .ok ()⟩
  else
    ⟨{ m with providers := aInsert m.providers p.id p }, live, true, .ok ()⟩

/-- commands.rs: delete_provider (lines 207–263). The active-pointer
check precedes the existence check; the per-provider artifact-file
deletions can fail (`fileDelOk = false`), aborting before the registry
is touched. Returns (final registry, save invoked, result). -/
def deleteProvider (m : ProviderManager) (id : String) (fileDelOk : Bool) :
    ProviderManager × Bool × Except Err Unit :=
  if m.current = id then (m, false, .error .InvalidOperation)
  else
    match aLookup m.providers id with
    | none => (m, false, .error .NotFound)
    | some _ =>
      if fileDelOk then
        ({ m with providers := aRemove m.providers id }, true, .ok ())
      else (m, false, .error .IOError)

/-- commands.rs: import_default_config (lines 373–450), Claude branch:
no-op success when the registry is non-empty; LiveConfigMissing when
the live settings file is absent; otherwise insert the "default"
provider holding the live content and make it current, then persist. -/
def importDefaultClaude (m : ProviderManager) (live : Option Json) :
    ProviderManager × Bool × Except Err Unit :=
  if m.providers.isEmpty then
    match live with
    | none => (m, false, .error .LiveConfigMissing)
    | some liveJson =>
      let p := Provider.withId "default" "default" liveJson none
      ({ providers := aInsert m.providers "default" p, current := "default" },
       true, .ok ())
  else (m, false, .ok ())

/-- commands.rs: import_default_config, Codex branch: the existence
gate is on auth.json; the configuration text is then read and
validated; the imported payload pairs both live contents. -/
def importDefaultCodex (m : ProviderManager) (live : CodexLive) :
    ProviderManager × Bool × Except Err Unit :=
  if m.providers.isEmpty then
    match live.auth with
    | none => (m, false, .error .LiveConfigMissing)
    | some auth =>
      match readAndValidateConfigFromPathAt live.cfg with
      | .error e => (m, false, .error e)
      | .ok cfgStr =>
        let p := Provider.withId "default" "default"
          (mkCodexPayload auth cfgStr) none
        ({ providers := aInsert m.providers "default" p,
           current := "default" }, true, .ok ())
  else (m, false, .ok ())

/-- Parse-classification model of the on-disk store file: the original
bytes plus the outcome of the two serde parses that load() attempts in
order (legacy v1 ProviderManager first, then the v2 wrapper). -/
structure StoreFile where
  bytes : String
  asV1 : Option ProviderManager
  asV2 : Option MultiAppConfig
  deriving DecidableEq, Repr

/-- app_config.rs: the migrated store built from a v1 registry —
version 2, default settings, the v1 registry under "claude", an empty
registry under "codex". -/
def migrateV1 (pm : ProviderManager) : MultiAppConfig :=
  { version := 2, settings := {},
    apps := [("claude", pm), ("codex", ProviderManager.defaultPM)] }

/-- app_config.rs: the timestamped v1 backup filename. -/
def v1BackupName (ts : Nat) : String :=
  "config.v1.backup." ++ toString ts ++ ".json"

/-- Result of MultiAppConfig::load: the returned store or error, the
timestamped backup written during migration (filename and content),
and the store persisted during load, if any. -/
structure LoadOutcome where
  result : Except Err MultiAppConfig
  backupWritten : Option (String × String)
  persisted : Option MultiAppConfig
  deriving DecidableEq, Repr

/-- app_config.rs: MultiAppConfig::load (lines 92–143). `file` is the
store file (`none` = absent), `ts` the unix-seconds timestamp used for
the migration backup name. Backup copy and persistence are modelled
fault-free (in the code a backup-copy failure is logged and
swallowed). -/
def MultiAppConfig.load (file : Option StoreFile) (ts : Nat) : LoadOutcome :=
  match file with
  | none => ⟨.ok MultiAppConfig.defaultCfg, none, none⟩
  | some f =>
    match f.asV1 with
    | some pm =>
      let cfg := migrateV1 pm
      ⟨.ok cfg, some (v1BackupName ts, f.bytes), some cfg⟩
    | none =>
      match f.asV2 with
      | some c => ⟨.ok c, none, none⟩
      | none => ⟨.error .MalformedStore, none, none⟩

/-- settings.rs: TargetEnv. -/
inductive TargetEnv where
  | windows : TargetEnv
  | wsl : TargetEnv
  deriving DecidableEq, Repr

/-- settings.rs: AppSettings (runtime environment settings, separate
from the store). -/
structure AppSettings where
  show_in_tray : Bool := true
  target_env : TargetEnv := .windows
  wsl_distro : Option String := none
  deriving DecidableEq, Repr

/-- Host path join (PathBuf::join with the Windows separator). -/
def pathJoin (p seg : String) : String := p ++ "\\" ++ seg

/-- wsl_env.rs: to_unc_path — trim leading slashes, turn the remaining
slashes into backslashes, and prefix the distro UNC root
(kernel-computable character-list form of the string operations). -/
def toUncPath (distro linuxPath : String) : String :=
  let trimmed := String.mk (linuxPath.data.dropWhile (fun c => c = '/'))
  let winSeg := String.mk
    (trimmed.data.map (fun c => if c = '/' then '\\' else c))
  "\\\\wsl$\\" ++ distro ++ "\\" ++ winSeg

/-- wsl_env.rs: env_home_path. `osHome` models dirs::home_dir,
`queryWslHome` models resolve_wsl_home_impl (the external wsl.exe
query, which may fail). -/
def envHomePath (osHome : String) (queryWslHome : String → Except Err String)
    (s : AppSettings) : Except Err String :=
  match s.target_env with
  | .windows => .ok osHome
  | .wsl =>
    match s.wsl_distro with
    | none => .error .MissingDistroConfig
    | some distro =>
      match queryWslHome distro with
      | .error e => .error e
      | .ok homeLinux => .ok (toUncPath distro homeLinux)

/-- wsl_env.rs: env_claude_dir. -/
def envClaudeDir (osHome : String) (queryWslHome : String → Except Err String)
    (s : AppSettings) : Except Err String :=
  (envHomePath osHome queryWslHome s).map (fun h => pathJoin h ".claude")

/-- wsl_env.rs: env_claude_settings_path — canonical settings.json
with legacy claude.json fallback, resolved by existence (`fsHas`) at
read time. -/
def envClaudeSettingsPath (osHome : String)
    (queryWslHome : String → Except Err String) (s : AppSettings)
    (fsHas : String → Bool) : Except Err String :=
  match envClaudeDir osHome queryWslHome s with
  | .error e => .error e
  | .ok dir =>
    let canonical := pathJoin dir "settings.json"
    if fsHas canonical then .ok canonical
    else
      let legacy := pathJoin dir "claude.json"
      if fsHas legacy then .ok legacy
      else .ok canonical

/-- wsl_env.rs: env_codex_dir. -/
def envCodexDir (osHome : String) (queryWslHome : String → Except Err String)
    (s : AppSettings) : Except Err String :=
  (envHomePath osHome queryWslHome s).map (fun h => pathJoin h ".codex")

/-- wsl_env.rs: env_codex_auth_path. -/
def envCodexAuthPath (osHome : String)
    (queryWslHome : String → Except Err String) (s : AppSettings) :
    Except Err String :=
  (envCodexDir osHome queryWslHome s).map (fun d => pathJoin d "auth.json")

/-- wsl_env.rs: env_codex_config_path. -/
def envCodexConfigPath (osHome : String)
    (queryWslHome : String → Except Err String) (s : AppSettings) :
    Except Err String :=
  (envCodexDir osHome queryWslHome s).map (fun d => pathJoin d "config.toml")

/-- Modelled from the spec: `get_claude_settings_path` lives in
config.rs, absent from src/. It takes no environment settings, so it
resolves under the local (OS-reported) home directory — §4.1's Local
branch — with the same canonical/legacy filename fallback. -/
def getClaudeSettingsPath (osHome : String) (fsHas : String → Bool) : String :=
  let dir := pathJoin osHome ".claude"
  let canonical := pathJoin dir "settings.json"
  if fsHas canonical then canonical
  else
    let legacy := pathJoin dir "claude.json"
    if fsHas legacy then legacy
    else canonical

/-- commands.rs lines 166–185: the live-file path update_provider's
Claude branch writes when the target is current — it calls
config::get_claude_settings_path(), not the environment resolver. -/
def updateProviderClaudeWritePath (osHome : String) (fsHas : String → Bool) :
    String :=
  getClaudeSettingsPath osHome fsHas

/-- commands.rs lines 91–113: the live-file path add_provider's Claude
branch writes — env_claude_settings_path under the configured target
environment. -/
def addProviderClaudeWritePath (osHome : String)
    (queryWslHome : String → Except Err String) (s : AppSettings)
    (fsHas : String → Bool) : Except Err String :=
  envClaudeSettingsPath osHome queryWslHome s fsHas

/-- commands.rs: get_providers (lines 16–38) after app-kind
resolution: AppKindNotFound exactly when the parsed kind's key is
absent from the apps map. -/
def getProviders (c : MultiAppConfig) (a : AppType) :
    Except Err (List (String × Provider)) :=
  match c.getManager a with
  | none => .error .AppKindNotFound
  | some m => .ok m.providers

/-- commands.rs: boundary parameter resolution shared by the command
handlers — a typed app_type if given, else parse the `app` string,
else parse the `appType` string, defaulting to Claude. -/
def resolveAppType (appTypeParam : Option AppType) (app : Option String)
    (appTypeStr : Option String) : AppType :=
  ((appTypeParam.orElse (fun _ => app.map AppType.ofStr)).orElse
    (fun _ => appTypeStr.map AppType.ofStr)).getD .claude

/-- Abstract events of a command handler in source order: ConfigStore
lock acquisition and release, and filesystem or external-process
calls. -/
inductive Ev where
  | acq : Ev
  | rel : Ev
  | fsOp : Ev
  deriving DecidableEq, Repr

/-- Whether some filesystem/external call occurs while the lock is
held (`d` = current lock depth). -/
def fsUnderLock : List Ev → Nat → Bool
  | [], _ => false
  | .acq :: t, d => fsUnderLock t (d + 1)
  | .rel :: t, d => fsUnderLock t (d - 1)
  | .fsOp :: t, d => decide (0 < d) || fsUnderLock t d

/-- commands.rs 67–132 add_provider event trace: short lock to read
is_current; when the target is current, settings load + path
resolution + live write with the lock released; re-lock for the
in-memory insert; release; then AppState::save. -/
def addProviderEvents (isCurrent : Bool) : List Ev :=
  [.acq, .rel] ++ (if isCurrent then [.fsOp] else []) ++ [.acq, .rel, .fsOp]

/-- commands.rs 136–203 update_provider event trace: same shape as
add_provider (short lock for the exists/is_current facts, I/O
unlocked, re-lock to mutate, save after release). -/
def updateProviderEvents (isCurrent : Bool) : List Ev :=
  [.acq, .rel] ++ (if isCurrent then [.fsOp] else []) ++ [.acq, .rel, .fsOp]

/-- commands.rs 267–369 switch_provider event trace: the lock is
acquired before the existence check and held across settings load,
environment/path resolution (including the wsl.exe query), the
backfill reads and the live writes; it is released only before
AppState::save. -/
def switchProviderEvents (backfill : Bool) : List Ev :=
  [.acq] ++ (if backfill then [.fsOp] else []) ++ [.fsOp, .rel, .fsOp]

/-- The registry invariant: `current` is empty or a key present in
`providers`. -/
def invCurrent (m : ProviderManager) : Prop :=
  m.current = "" ∨ (aLookup m.providers m.current).isSome = true

/-- Lookup of a different key is unchanged by erasing `k`. -/
theorem aLookup_aErase_ne (m : List (String × Provider)) (k k' : String)
    (h : ¬ k = k') :
    aLookup (aErase m k) k' = aLookup m k' := by
  induction m with
  | nil => rfl
  | cons e t ih =>
    by_cases h1 : e.1 = k
    · have h2 : ¬ e.1 = k' := by rw [h1]; exact h
      rw [aErase, if_pos h1, ih, aLookup, if_neg h2]
    · rw [aErase, if_neg h1, aLookup, aLookup]
      by_cases h2 : e.1 = k'
      · rw [if_pos h2, if_pos h2]
      · rw [if_neg h2, if_neg h2, ih]

/-- Erasing a key makes its lookup `none`. -/
theorem aLookup_aErase_self (m : List (String × Provider)) (k : String) :
    aLookup (aErase m k) k = none := by
  induction m with
  | nil => rfl
  | cons e t ih =>
    by_cases h1 : e.1 = k
    · rw [aErase, if_pos h1, ih]
    · rw [aErase, if_neg h1, aLookup, if_neg h1, ih]

/-- Lookup after aInsert: the inserted key maps to the new value, all
other keys are unchanged. -/
theorem aLookup_aInsert (m : List (String × Provider)) (k : String)
    (v : Provider) (k' : String) :
    aLookup (aInsert m k v) k' = if k = k' then some v else aLookup m k' := by
  by_cases h : k = k'
  · rw [aInsert, aLookup, if_pos h, if_pos h]
  · rw [aInsert, aLookup, if_neg h, if_neg h, aLookup_aErase_ne m k k' h]

/-- Lookup after aRemove: the removed key maps to nothing, all other
keys are unchanged. -/
theorem aLookup_aRemove (m : List (String × Provider)) (k k' : String) :
    aLookup (aRemove m k) k' = if k = k' then none else aLookup m k' := by
  by_cases h : k = k'
  · subst h
    rw [aRemove, aLookup_aErase_self, if_pos rfl]
  · rw [aRemove, if_neg h, aLookup_aErase_ne m k k' h]

/-- Lookup after aAdjust: the adjusted key's value goes through `f`,
all other keys are unchanged. -/
theorem aLookup_aAdjust (m : List (String × Provider)) (k : String)
    (f : Provider → Provider) (k' : String) :
    aLookup (aAdjust m k f) k' =
      if k = k' then (aLookup m k').map f else aLookup m k' := by
  induction m with
  | nil => by_cases h : k = k' <;> simp [aAdjust, aLookup, h]
  | cons e t ih =>
    by_cases h1 : e.1 = k
    · by_cases h2 : e.1 = k'
      · have h3 : k = k' := by rw [← h1]; exact h2
        rw [aAdjust, if_pos h1, aLookup, if_pos h2, if_pos h3, aLookup,
          if_pos h2, Option.map]
      · have h3 : ¬ k = k' := by rw [← h1]; exact h2
        rw [aAdjust, if_pos h1, aLookup]
        rw [show ((e.1, f e.2) : String × Provider).1 = e.1 from rfl,
          if_neg h2, ih, if_neg h3, if_neg h3, aLookup, if_neg h2]
    · by_cases h2 : e.1 = k'
      · have h3 : ¬ k = k' := by intro hc; rw [hc] at h1; exact h1 h2
        rw [aAdjust, if_neg h1, aLookup, if_pos h2, if_neg h3, aLookup,
          if_pos h2]
      · rw [aAdjust, if_neg h1, aLookup, if_neg h2, ih, aLookup, if_neg h2]

/-- aAdjust never changes which keys are present. -/
theorem aLookup_aAdjust_isSome (m : List (String × Provider)) (k : String)
    (f : Provider → Provider) (k' : String) :
    (aLookup (aAdjust m k f) k').isSome = (aLookup m k').isSome := by
  rw [aLookup_aAdjust]
  by_cases h : k = k' <;> simp [h]

/-- Inserting any binding preserves the registry invariant. -/
theorem invCurrent_aInsert (m : ProviderManager) (k : String) (v : Provider)
    (h : invCurrent m) :
    invCurrent { m with providers := aInsert m.providers k v } := by
  cases h with
  | inl h => exact Or.inl h
  | inr h =>
    right
    show (aLookup (aInsert m.providers k v) m.current).isSome = true
    rw [aLookup_aInsert]
    by_cases hk : k = m.current <;> simp [hk, h]

/-- Adjusting a value in place preserves the registry invariant. -/
theorem invCurrent_aAdjust (m : ProviderManager) (k : String)
    (f : Provider → Provider) (h : invCurrent m) :
    invCurrent { m with providers := aAdjust m.providers k f } := by
  cases h with
  | inl h => exact Or.inl h
  | inr h =>
    right
    show (aLookup (aAdjust m.providers k f) m.current).isSome = true
    rw [aLookup_aAdjust_isSome]
    exact h

/-- On success the dual-file writer leaves exactly the incoming
payload in both files. -/
theorem writeCodexLiveAtomicAt_ok (auth : Json) (cfgText : Option String)
    (live : CodexLive) (wA wC : Bool)
    (h : (writeCodexLiveAtomicAt auth cfgText live wA wC).2 = .ok ()) :
    (writeCodexLiveAtomicAt auth cfgText live wA wC).1 =
      { auth := some auth, cfg := cfgText } := by
  cases cfgText with
  | none => simp [writeCodexLiveAtomicAt] at h
  | some t =>
    cases wA <;> cases wC <;> simp_all [writeCodexLiveAtomicAt]

/-- On failure the dual-file writer leaves both files with their
pre-write content (the restore of the first file included). -/
theorem writeCodexLiveAtomicAt_err (auth : Json) (cfgText : Option String)
    (live : CodexLive) (wA wC : Bool)
    (h : (writeCodexLiveAtomicAt auth cfgText live wA wC).2 ≠ .ok ()) :
    (writeCodexLiveAtomicAt auth cfgText live wA wC).1 = live := by
  cases cfgText with
  | none => rfl
  | some t =>
    cases wA <;> cases wC <;> simp_all [writeCodexLiveAtomicAt]


/-- A successful Codex backfill keeps the current pointer and the key
set of the registry. -/
theorem codexBackfill_ok (m : ProviderManager) (live : CodexLive)
    (m1 : ProviderManager) (h : codexBackfill m live = .ok m1) :
    m1.current = m.current ∧
    ∀ k, (aLookup m1.providers k).isSome = (aLookup m.providers k).isSome := by
  unfold codexBackfill at h
  by_cases hc : m.current = ""
  · rw [if_pos hc] at h
    cases h
    exact ⟨rfl, fun k => rfl⟩
  · rw [if_neg hc] at h
    cases hAu : live.auth with
    | none =>
      rw [hAu] at h
      cases h
      exact ⟨rfl, fun k => rfl⟩
    | some authLive =>
      rw [hAu] at h
      cases hr : readCodexConfigTextAt live.cfg with
      | error e => rw [hr] at h; cases h
      | ok cfgStr =>
        rw [hr] at h
        cases h
        exact ⟨rfl, fun k => aLookup_aAdjust_isSome m.providers m.current _ k⟩

/-- The Claude backfill keeps the current pointer and the key set of
the registry. -/
theorem claudeBackfill_props (m : ProviderManager) (live : Option Json) :
    (claudeBackfill m live).current = m.current ∧
    ∀ k, (aLookup (claudeBackfill m live).providers k).isSome =
      (aLookup m.providers k).isSome := by
  unfold claudeBackfill
  cases live with
  | none => exact ⟨rfl, fun k => rfl⟩
  | some j =>
    dsimp only
    by_cases hc : m.current = ""
    · rw [if_pos hc]
      exact ⟨rfl, fun k => rfl⟩
    · rw [if_neg hc]
      exact ⟨rfl, fun k => aLookup_aAdjust_isSome m.providers m.current _ k⟩

/-- A failed Codex switch keeps the previous current pointer, leaves
the live pair at its pre-switch content, and does not persist. -/
theorem switchProviderCodex_err (m : ProviderManager) (live : CodexLive)
    (id : String) (wA wC : Bool)
    (h : (switchProviderCodex m live id wA wC).result ≠ .ok ()) :
    (switchProviderCodex m live id wA wC).manager.current = m.current ∧
    (switchProviderCodex m live id wA wC).live = live ∧
    (switchProviderCodex m live id wA wC).saved = false := by
  unfold switchProviderCodex at h ⊢
  cases hL : aLookup m.providers id with
  | none => simp
  | some p =>
    rw [hL] at h
    dsimp only at h ⊢
    cases hb : codexBackfill m live with
    | error e => simp [hb]
    | ok m1 =>
      simp only [hb] at h ⊢
      cases hA : p.settings_config.get "auth" with
      | none =>
        simp only [hA]
        refine ⟨(codexBackfill_ok m live m1 hb).1, ?_, ?_⟩ <;> first | rfl | trivial
      | some auth =>
        simp only [hA] at h ⊢
        cases hw : writeCodexLiveAtomicAt auth
            ((p.settings_config.get "config").bind Json.asStr) live wA wC with
        | mk live1 r =>
          cases r with
          | error e =>
            simp only [hw]
            have h1 := writeCodexLiveAtomicAt_err auth
              ((p.settings_config.get "config").bind Json.asStr) live wA wC
              (by rw [hw]; simp)
            rw [hw] at h1
            exact ⟨(codexBackfill_ok m live m1 hb).1, h1, trivial⟩
          | ok u =>
            rw [hw] at h
            exact absurd rfl h

/-- A failed Claude switch keeps the previous current pointer, leaves
the live file at its pre-switch content, and does not persist. -/
theorem switchProviderClaude_err (m : ProviderManager) (live : Option Json)
    (id : String) (wOk : Bool)
    (h : (switchProviderClaude m live id wOk).result ≠ .ok ()) :
    (switchProviderClaude m live id wOk).manager.current = m.current ∧
    (switchProviderClaude m live id wOk).live = live ∧
    (switchProviderClaude m live id wOk).saved = false := by
  unfold switchProviderClaude at h ⊢
  cases hL : aLookup m.providers id with
  | none => simp
  | some p =>
    rw [hL] at h
    dsimp only at h ⊢
    cases wOk with
    | true => exact absurd rfl h
    | false =>
      exact ⟨(claudeBackfill_props m live).1, rfl, rfl⟩

/-- Shape of a successful Codex switch: the target id was found, the
backfill succeeded, auth was extracted from the target payload, the
live pair now holds the target payload, current is the target id, and
the store was persisted. -/
theorem switchProviderCodex_ok (m : ProviderManager) (live : CodexLive)
    (id : String) (wA wC : Bool)
    (h : (switchProviderCodex m live id wA wC).result = .ok ()) :
    ∃ p m1 auth,
      aLookup m.providers id = some p ∧
      codexBackfill m live = .ok m1 ∧
      p.settings_config.get "auth" = some auth ∧
      switchProviderCodex m live id wA wC =
        ⟨{ providers := m1.providers, current := id },
         { auth := some auth,
           cfg := (p.settings_config.get "config").bind Json.asStr },
         true, .ok ()⟩ := by
  unfold switchProviderCodex at h ⊢
  cases hL : aLookup m.providers id with
  | none => rw [hL] at h; exact absurd h (by simp)
  | some p =>
    rw [hL] at h
    dsimp only at h ⊢
    cases hb : codexBackfill m live with
    | error e => rw [hb] at h; exact absurd h (by simp)
    | ok m1 =>
      rw [hb] at h
      dsimp only at h
      cases hA : p.settings_config.get "auth" with
      | none => rw [hA] at h; exact absurd h (by simp)
      | some auth =>
        rw [hA] at h
        dsimp only at h
        cases hw : writeCodexLiveAtomicAt auth
            ((p.settings_config.get "config").bind Json.asStr) live wA wC with
        | mk live1 r =>
          cases r with
          | error e => rw [hw] at h; exact absurd h (by simp)
          | ok u =>
            refine ⟨p, m1, auth, rfl, rfl, hA, ?_⟩
            have h1 := writeCodexLiveAtomicAt_ok auth
              ((p.settings_config.get "config").bind Json.asStr) live wA wC
              (by rw [hw])
            rw [hw] at h1
            have h2 : live1 =
                { auth := some auth,
                  cfg := (p.settings_config.get "config").bind Json.asStr } := h1
            simp only [hw]
            rw [h2]

/-- Shape of a successful Claude switch: the target id was found, the
backfilled registry got current set to the target id, the live file
now holds the target payload, and the store was persisted. -/
theorem switchProviderClaude_ok (m : ProviderManager) (live : Option Json)
    (id : String) (wOk : Bool)
    (h : (switchProviderClaude m live id wOk).result = .ok ()) :
    ∃ p, aLookup m.providers id = some p ∧
      switchProviderClaude m live id wOk =
        ⟨{ providers := (claudeBackfill m live).providers, current := id },
         some p.settings_config, true, .ok ()⟩ := by
  unfold switchProviderClaude at h ⊢
  cases hL : aLookup m.providers id with
  | none => rw [hL] at h; exact absurd h (by simp)
  | some p =>
    rw [hL] at h
    dsimp only at h ⊢
    cases wOk with
    | false => exact absurd h (by simp)
    | true => exact ⟨p, rfl, rfl⟩

/-- With the current pointer set and both live files present, the
Codex backfill stores exactly the live pair into the current
provider's payload. -/
theorem codexBackfill_content (m : ProviderManager) (a : Json) (c : String)
    (hc : ¬ m.current = "") :
    codexBackfill m ⟨some a, some c⟩ =
      .ok { m with providers := aAdjust m.providers m.current (fun cur =>
        { cur with settings_config := mkCodexPayload a c }) } := by
  unfold codexBackfill
  rw [if_neg hc]
  rfl

/-- With the current pointer set and the live file present, the Claude
backfill stores exactly the live content into the current provider's
payload. -/
theorem claudeBackfill_content (m : ProviderManager) (j : Json)
    (hc : ¬ m.current = "") :
    claudeBackfill m (some j) =
      { m with providers := aAdjust m.providers m.current (fun cur =>
        { cur with settings_config := j }) } := by
  unfold claudeBackfill
  dsimp only
  rw [if_neg hc]

/-- Sample Codex auth payload value. -/
def sampleAuthA : Json := .str "token-a"

/-- Sample Codex provider payload. -/
def samplePayloadA : Json := mkCodexPayload sampleAuthA "base_url = a"

/-- Sample Codex provider "a". -/
def sampleProviderA : Provider := Provider.withId "a" "A" samplePayloadA none

/-- Sample Codex auth payload value. -/
def sampleAuthB : Json := .str "token-b"

/-- Sample Codex provider payload. -/
def samplePayloadB : Json := mkCodexPayload sampleAuthB "base_url = b"

/-- Sample Codex provider "b". -/
def sampleProviderB : Provider := Provider.withId "b" "B" samplePayloadB none

/-- Sample Codex registry with providers "a" and "b", current "a". -/
def sampleCodexMgr : ProviderManager :=
  { providers := [("a", sampleProviderA), ("b", sampleProviderB)],
    current := "a" }

/-- Sample Codex live pair. -/
def sampleCodexLive : CodexLive :=
  { auth := some (.str "live-token"), cfg := some "live-cfg" }

/-- Sample Claude live settings content. -/
def sampleClaudeLive : Json := .obj (.cons "model" (.str "live") .nil)

/-- Sample Claude provider "c". -/
def sampleClaudeP : Provider :=
  Provider.withId "c" "C" (.obj (.cons "model" (.str "m1") .nil)) none

/-- Sample Claude provider "d". -/
def sampleClaudeQ : Provider :=
  Provider.withId "d" "D" (.obj (.cons "model" (.str "m2") .nil)) none

/-- Sample Claude registry with providers "c" and "d", current "c". -/
def sampleClaudeMgr : ProviderManager :=
  { providers := [("c", sampleClaudeP), ("d", sampleClaudeQ)],
    current := "c" }

/-- Claim C1: for the dual-file (Codex) make-live commit: if the first
write succeeds and the second fails, the first file's pre-write content
is restored before the error is returned; after the operation the pair
is never in a mixed state — on success both files hold exactly the
incoming provider's payload, on failure both hold their pre-switch
content; and on a failed switch the registry's current is unchanged. -/
theorem c1_codex_dual_file_atomicity (m : ProviderManager)
    (live : CodexLive) (id : String) (auth : Json) (cfgText : Option String)
    (wA wC : Bool) :
    (wA = true → wC = false →
      (writeCodexLiveAtomicAt auth cfgText live wA wC).1.auth = live.auth ∧
      (writeCodexLiveAtomicAt auth cfgText live wA wC).2 ≠ .ok ()) ∧
    ((writeCodexLiveAtomicAt auth cfgText live wA wC).2 = .ok () →
      (writeCodexLiveAtomicAt auth cfgText live wA wC).1 =
        { auth := some auth, cfg := cfgText }) ∧
    ((writeCodexLiveAtomicAt auth cfgText live wA wC).2 ≠ .ok () →
      (writeCodexLiveAtomicAt auth cfgText live wA wC).1 = live) ∧
    ((switchProviderCodex m live id wA wC).result ≠ .ok () →
      (switchProviderCodex m live id wA wC).live = live ∧
      (switchProviderCodex m live id wA wC).manager.current = m.current) := by
  refine ⟨?_, ?_, ?_, ?_⟩
  · intro hA hC
    subst hA; subst hC
    cases cfgText with
    | none => exact ⟨rfl, by simp [writeCodexLiveAtomicAt]⟩
    | some t => exact ⟨rfl, by simp [writeCodexLiveAtomicAt]⟩
  · exact writeCodexLiveAtomicAt_ok auth cfgText live wA wC
  · exact writeCodexLiveAtomicAt_err auth cfgText live wA wC
  · intro h
    exact ⟨(switchProviderCodex_err m live id wA wC h).2.1,
           (switchProviderCodex_err m live id wA wC h).1⟩

/-- Claim C1 witness: the atomicity facts evaluated at concrete
inputs — second-write failure restores the first file, and a fully
successful write installs the incoming payload in both files. -/
theorem c1_codex_dual_file_atomicity_witness :
    (writeCodexLiveAtomicAt sampleAuthB (some "cfg-b") sampleCodexLive
        true false).1.auth = sampleCodexLive.auth ∧
    (writeCodexLiveAtomicAt sampleAuthB (some "cfg-b") sampleCodexLive
        true true).1 = { auth := some sampleAuthB, cfg := some "cfg-b" } := by
  constructor
  · exact ((c1_codex_dual_file_atomicity sampleCodexMgr sampleCodexLive "b"
      sampleAuthB (some "cfg-b") true false).1 rfl rfl).1
  · exact (c1_codex_dual_file_atomicity sampleCodexMgr sampleCodexLive "b"
      sampleAuthB (some "cfg-b") true true).2.1 rfl

/-- Claim C2: switching to an id absent from the registry returns
NotFound with registry and live files byte-for-byte unchanged; any
failure before promotion keeps the previous current and does not
persist; and persistence happens only when the commit succeeded (at
which point current is the target id). -/
theorem c2_switch_failure_atomic (mC mL : ProviderManager)
    (liveC : CodexLive) (liveL : Option Json) (id : String)
    (wA wC wOk : Bool) :
    (aLookup mC.providers id = none →
      switchProviderCodex mC liveC id wA wC =
        ⟨mC, liveC, false, .error .NotFound⟩) ∧
    (aLookup mL.providers id = none →
      switchProviderClaude mL liveL id wOk =
        ⟨mL, liveL, false, .error .NotFound⟩) ∧
    ((switchProviderCodex mC liveC id wA wC).result ≠ .ok () →
      (switchProviderCodex mC liveC id wA wC).manager.current = mC.current ∧
      (switchProviderCodex mC liveC id wA wC).saved = false) ∧
    ((switchProviderClaude mL liveL id wOk).result ≠ .ok () →
      (switchProviderClaude mL liveL id wOk).manager.current = mL.current ∧
      (switchProviderClaude mL liveL id wOk).saved = false) ∧
    ((switchProviderCodex mC liveC id wA wC).saved = true →
      (switchProviderCodex mC liveC id wA wC).result = .ok () ∧
      (switchProviderCodex mC liveC id wA wC).manager.current = id) ∧
    ((switchProviderClaude mL liveL id wOk).saved = true →
      (switchProviderClaude mL liveL id wOk).result = .ok () ∧
      (switchProviderClaude mL liveL id wOk).manager.current = id) := by
  refine ⟨?_, ?_, ?_, ?_, ?_, ?_⟩
  · intro h
    unfold switchProviderCodex
    rw [h]
  · intro h
    unfold switchProviderClaude
    rw [h]
  · intro h
    exact ⟨(switchProviderCodex_err mC liveC id wA wC h).1,
           (switchProviderCodex_err mC liveC id wA wC h).2.2⟩
  · intro h
    exact ⟨(switchProviderClaude_err mL liveL id wOk h).1,
           (switchProviderClaude_err mL liveL id wOk h).2.2⟩
  · intro hs
    by_cases h : (switchProviderCodex mC liveC id wA wC).result = .ok ()
    · obtain ⟨p, m1, auth, h1, h2, h3, heq⟩ :=
        switchProviderCodex_ok mC liveC id wA wC h
      rw [heq]
      exact ⟨rfl, rfl⟩
    · have hf := (switchProviderCodex_err mC liveC id wA wC h).2.2
      rw [hf] at hs
      exact Bool.noConfusion hs
  · intro hs
    by_cases h : (switchProviderClaude mL liveL id wOk).result = .ok ()
    · obtain ⟨p, h1, heq⟩ := switchProviderClaude_ok mL liveL id wOk h
      rw [heq]
      exact ⟨rfl, rfl⟩
    · have hf := (switchProviderClaude_err mL liveL id wOk h).2.2
      rw [hf] at hs
      exact Bool.noConfusion hs

/-- add_provider preserves the registry invariant (Claude branch). -/
theorem invCurrent_addClaude (m : ProviderManager) (live : Option Json)
    (p : Provider) (wOk : Bool) (h : invCurrent m) :
    invCurrent (addProviderClaude m live p wOk).manager := by
  unfold addProviderClaude
  by_cases hc : m.current = p.id
  · rw [if_pos hc]
    cases wOk with
    | true => exact invCurrent_aInsert m p.id p h
    | false => exact h
  · rw [if_neg hc]
    exact invCurrent_aInsert m p.id p h

/-- add_provider preserves the registry invariant (Codex branch). -/
theorem invCurrent_addCodex (m : ProviderManager) (live : CodexLive)
    (p : Provider) (wA wC : Bool) (h : invCurrent m) :
    invCurrent (addProviderCodex m live p wA wC).manager := by
  unfold addProviderCodex
  by_cases hc : m.current = p.id
  · rw [if_pos hc]
    cases hA : p.settings_config.get "auth" with
    | none => exact h
    | some auth =>
      dsimp only
      cases hw : writeCodexLiveAtomicAt auth
          ((p.settings_config.get "config").bind Json.asStr) live wA wC with
      | mk l1 r =>
        cases r with
        | error e => exact h
        | ok u => exact invCurrent_aInsert m p.id p h
  · rw [if_neg hc]
    exact invCurrent_aInsert m p.id p h

/-- update_provider preserves the registry invariant (Claude branch). -/
theorem invCurrent_updateClaude (m : ProviderManager) (live : Option Json)
    (p : Provider) (wOk : Bool) (h : invCurrent m) :
    invCurrent (updateProviderClaude m live p wOk).manager := by
  unfold updateProviderClaude
  by_cases he : (aLookup m.providers p.id).isNone
  · rw [if_pos he]
    exact h
  · rw [if_neg he]
    by_cases hc : m.current = p.id
    · rw [if_pos hc]
      cases wOk with
      | true => exact invCurrent_aInsert m p.id p h
      | false => exact h
    · rw [if_neg hc]
      exact invCurrent_aInsert m p.id p h

/-- update_provider preserves the registry invariant (Codex branch). -/
theorem invCurrent_updateCodex (m : ProviderManager) (live : CodexLive)
    (p : Provider) (wA wC : Bool) (h : invCurrent m) :
    invCurrent (updateProviderCodex m live p wA wC).manager := by
  unfold updateProviderCodex
  by_cases he : (aLookup m.providers p.id).isNone
  · rw [if_pos he]
    exact h
  · rw [if_neg he]
    by_cases hc : m.current = p.id
    · rw [if_pos hc]
      cases hA : p.settings_config.get "auth" with
      | none => exact h
      | some auth =>
        dsimp only
        cases hw : writeCodexLiveAtomicAt auth
            ((p.settings_config.get "config").bind Json.asStr) live wA wC with
        | mk l1 r =>
          cases r with
          | error e => exact h
          | ok u => exact invCurrent_aInsert m p.id p h
    · rw [if_neg hc]
      exact invCurrent_aInsert m p.id p h

/-- delete_provider preserves the registry invariant. -/
theorem invCurrent_delete (m : ProviderManager) (id : String) (fOk : Bool)
    (h : invCurrent m) :
    invCurrent (deleteProvider m id fOk).1 := by
  unfold deleteProvider
  by_cases hc : m.current = id
  · rw [if_pos hc]
    exact h
  · rw [if_neg hc]
    cases hL : aLookup m.providers id with
    | none => exact h
    | some p =>
      cases fOk with
      | false => exact h
      | true =>
        cases h with
        | inl h0 => exact Or.inl h0
        | inr h0 =>
          right
          show (aLookup (aRemove m.providers id) m.current).isSome = true
          rw [aLookup_aRemove, if_neg (fun hh => hc hh.symm)]
          exact h0

/-- switch_provider preserves the registry invariant (Claude branch). -/
theorem invCurrent_switchClaude (m : ProviderManager) (live : Option Json)
    (id : String) (wOk : Bool) (h : invCurrent m) :
    invCurrent (switchProviderClaude m live id wOk).manager := by
  unfold switchProviderClaude
  cases hL : aLookup m.providers id with
  | none => exact h
  | some p =>
    dsimp only
    cases wOk with
    | false =>
      show invCurrent (claudeBackfill m live)
      unfold invCurrent
      rw [(claudeBackfill_props m live).1,
        (claudeBackfill_props m live).2 m.current]
      exact h
    | true =>
      right
      show (aLookup (claudeBackfill m live).providers id).isSome = true
      rw [(claudeBackfill_props m live).2 id, hL]
      rfl

/-- switch_provider preserves the registry invariant (Codex branch). -/
theorem invCurrent_switchCodex (m : ProviderManager) (live : CodexLive)
    (id : String) (wA wC : Bool) (h : invCurrent m) :
    invCurrent (switchProviderCodex m live id wA wC).manager := by
  unfold switchProviderCodex
  cases hL : aLookup m.providers id with
  | none => exact h
  | some p =>
    dsimp only
    cases hb : codexBackfill m live with
    | error e => exact h
    | ok m1 =>
      dsimp only
      have hB := codexBackfill_ok m live m1 hb
      cases hA : p.settings_config.get "auth" with
      | none =>
        show invCurrent m1
        unfold invCurrent
        rw [hB.1, hB.2 m.current]
        exact h
      | some auth =>
        dsimp only
        cases hw : writeCodexLiveAtomicAt auth
            ((p.settings_config.get "config").bind Json.asStr) live wA wC with
        | mk l1 r =>
          cases r with
          | error e =>
            show invCurrent m1
            unfold invCurrent
            rw [hB.1, hB.2 m.current]
            exact h
          | ok u =>
            right
            show (aLookup m1.providers id).isSome = true
            rw [hB.2 id, hL]
            rfl

/-- import_default preserves the registry invariant (Claude branch). -/
theorem invCurrent_importClaude (m : ProviderManager) (live : Option Json)
    (h : invCurrent m) :
    invCurrent (importDefaultClaude m live).1 := by
  unfold importDefaultClaude
  cases he : m.providers.isEmpty with
  | false => exact h
  | true =>
    cases live with
    | none => exact h
    | some j =>
      right
      show (aLookup (aInsert m.providers "default"
        (Provider.withId "default" "default" j none)) "default").isSome = true
      rw [aLookup_aInsert, if_pos rfl]
      rfl

/-- import_default preserves the registry invariant (Codex branch). -/
theorem invCurrent_importCodex (m : ProviderManager) (live : CodexLive)
    (h : invCurrent m) :
    invCurrent (importDefaultCodex m live).1 := by
  unfold importDefaultCodex
  cases he : m.providers.isEmpty with
  | false => exact h
  | true =>
    cases hAu : live.auth with
    | none => exact h
    | some auth =>
      cases hr : readAndValidateConfigFromPathAt live.cfg with
      | error e => exact h
      | ok cfgStr =>
        right
        show (aLookup (aInsert m.providers "default"
          (Provider.withId "default" "default"
            (mkCodexPayload auth cfgStr) none)) "default").isSome = true
        rw [aLookup_aInsert, if_pos rfl]
        rfl

/-- Claim C3: the invariant "current is empty or a present key" is
preserved by add, update, delete, switch and import_default for both
application kinds; delete rejects the active provider; a successful
switch sets current only to an id verified present; a successful
default-import sets current to "default" only with a "default" entry
inserted. -/
theorem c3_invariant_preserved (m : ProviderManager) (liveL : Option Json)
    (liveC : CodexLive) (p : Provider) (id : String) (wA wC wOk fOk : Bool)
    (h : invCurrent m) :
    invCurrent (addProviderClaude m liveL p wOk).manager ∧
    invCurrent (addProviderCodex m liveC p wA wC).manager ∧
    invCurrent (updateProviderClaude m liveL p wOk).manager ∧
    invCurrent (updateProviderCodex m liveC p wA wC).manager ∧
    invCurrent (deleteProvider m id fOk).1 ∧
    invCurrent (switchProviderClaude m liveL id wOk).manager ∧
    invCurrent (switchProviderCodex m liveC id wA wC).manager ∧
    invCurrent (importDefaultClaude m liveL).1 ∧
    invCurrent (importDefaultCodex m liveC).1 ∧
    (m.current = id →
      deleteProvider m id fOk = (m, false, .error .InvalidOperation)) ∧
    ((switchProviderClaude m liveL id wOk).result = .ok () →
      (switchProviderClaude m liveL id wOk).manager.current = id ∧
      (aLookup m.providers id).isSome = true) ∧
    ((switchProviderCodex m liveC id wA wC).result = .ok () →
      (switchProviderCodex m liveC id wA wC).manager.current = id ∧
      (aLookup m.providers id).isSome = true) := by
  refine ⟨invCurrent_addClaude m liveL p wOk h,
    invCurrent_addCodex m liveC p wA wC h,
    invCurrent_updateClaude m liveL p wOk h,
    invCurrent_updateCodex m liveC p wA wC h,
    invCurrent_delete m id fOk h,
    invCurrent_switchClaude m liveL id wOk h,
    invCurrent_switchCodex m liveC id wA wC h,
    invCurrent_importClaude m liveL h,
    invCurrent_importCodex m liveC h, ?_, ?_, ?_⟩
  · intro hc
    unfold deleteProvider
    rw [if_pos hc]
  · intro hOk
    obtain ⟨q, hq, heq⟩ := switchProviderClaude_ok m liveL id wOk hOk
    rw [heq, hq]
    exact ⟨rfl, rfl⟩
  · intro hOk
    obtain ⟨q, m1, auth, hq, hb, hA, heq⟩ :=
      switchProviderCodex_ok m liveC id wA wC hOk
    rw [heq, hq]
    exact ⟨rfl, rfl⟩

/-- Claim C3 witness: invariant preservation applied to the sample
Codex registry (which satisfies the invariant), an arbitrary provider
and the id "b". -/
theorem c3_invariant_preserved_witness :
    invCurrent (switchProviderCodex sampleCodexMgr sampleCodexLive
      "b" true true).manager ∧
    invCurrent (deleteProvider sampleCodexMgr "b" true).1 := by
  have h := c3_invariant_preserved sampleCodexMgr (some sampleClaudeLive)
    sampleCodexLive sampleProviderB "b" true true true true (Or.inr rfl)
  exact ⟨h.2.2.2.2.2.2.1, h.2.2.2.2.1⟩

/-- Claim C2 witness: switching both sample registries to the absent
id "zz" returns NotFound and leaves registry, live files and
persistence flag untouched. -/
theorem c2_switch_failure_atomic_witness :
    switchProviderCodex sampleCodexMgr sampleCodexLive "zz" true true =
      ⟨sampleCodexMgr, sampleCodexLive, false, .error .NotFound⟩ ∧
    switchProviderClaude sampleClaudeMgr (some sampleClaudeLive) "zz" true =
      ⟨sampleClaudeMgr, some sampleClaudeLive, false, .error .NotFound⟩ := by
  constructor
  · exact (c2_switch_failure_atomic sampleCodexMgr sampleClaudeMgr
      sampleCodexLive (some sampleClaudeLive) "zz" true true true).1 rfl
  · exact (c2_switch_failure_atomic sampleCodexMgr sampleClaudeMgr
      sampleCodexLive (some sampleClaudeLive) "zz" true true true).2.1 rfl

/-- Claim C4: backfill round-trip — when a provider is current and its
live file(s) exist at the start of the switch, a successful switch
leaves the outgoing provider's stored payload equal to the live
content observed immediately before the switch began. -/
theorem c4_backfill_roundtrip (mC mL : ProviderManager) (aL : Json)
    (cL : String) (jL : Json) (id1 id2 : String) (wA wC wOk : Bool)
    (p0 q0 : Provider) :
    (¬ mC.current = "" → aLookup mC.providers mC.current = some p0 →
      (switchProviderCodex mC ⟨some aL, some cL⟩ id1 wA wC).result = .ok () →
      aLookup (switchProviderCodex mC ⟨some aL, some cL⟩ id1
          wA wC).manager.providers mC.current =
        some { p0 with settings_config := mkCodexPayload aL cL }) ∧
    (¬ mL.current = "" → aLookup mL.providers mL.current = some q0 →
      (switchProviderClaude mL (some jL) id2 wOk).result = .ok () →
      aLookup (switchProviderClaude mL (some jL) id2
          wOk).manager.providers mL.current =
        some { q0 with settings_config := jL }) := by
  constructor
  · intro hc hp hOk
    obtain ⟨p, m1, auth, hq, hb, hA, heq⟩ :=
      switchProviderCodex_ok mC ⟨some aL, some cL⟩ id1 wA wC hOk
    rw [heq]
    dsimp only
    have hcontent := codexBackfill_content mC aL cL hc
    rw [hb] at hcontent
    injection hcontent with hm1
    rw [hm1]
    dsimp only
    rw [aLookup_aAdjust, if_pos rfl, hp]
    rfl
  · intro hc hq0 hOk
    obtain ⟨q, hq, heq⟩ := switchProviderClaude_ok mL (some jL) id2 wOk hOk
    rw [heq]
    dsimp only
    rw [claudeBackfill_content mL jL hc]
    dsimp only
    rw [aLookup_aAdjust, if_pos rfl, hq0]
    rfl

/-- Claim C4 witness: switching the sample Codex registry from "a" to
"b" with both live files present stores the observed live pair into
provider "a"'s payload. -/
theorem c4_backfill_roundtrip_witness :
    aLookup (switchProviderCodex sampleCodexMgr sampleCodexLive "b"
      true true).manager.providers "a" =
      some { sampleProviderA with
             settings_config := mkCodexPayload (.str "live-token") "live-cfg" } :=
  (c4_backfill_roundtrip sampleCodexMgr sampleClaudeMgr (.str "live-token")
    "live-cfg" sampleClaudeLive "b" "d" true true true sampleProviderA
    sampleClaudeP).1 (by decide) rfl rfl

/-- Claim C5: a store file parsing as the legacy v1 shape with
provider set S loads as a version-2 store with default settings,
claude registry S and empty codex registry; the timestamped backup
config.v1.backup.<unix-seconds>.json holding the original bytes is
written and the migrated store persisted before returning; a file
parsing as neither shape is a MalformedStore error. -/
theorem c5_v1_migration (pm : ProviderManager) (bytes : String)
    (v2 : Option MultiAppConfig) (ts : Nat) (f : StoreFile) :
    (MultiAppConfig.load (some ⟨bytes, some pm, v2⟩) ts =
      ⟨.ok (migrateV1 pm), some (v1BackupName ts, bytes),
       some (migrateV1 pm)⟩) ∧
    ((migrateV1 pm).version = 2 ∧ (migrateV1 pm).settings = {} ∧
      mLookup (migrateV1 pm).apps "claude" = some pm ∧
      mLookup (migrateV1 pm).apps "codex" = some ProviderManager.defaultPM) ∧
    (f.asV1 = none → f.asV2 = none →
      MultiAppConfig.load (some f) ts = ⟨.error .MalformedStore, none, none⟩) := by
  refine ⟨rfl, ⟨rfl, rfl, rfl, ?_⟩, ?_⟩
  · rfl
  · intro h1 h2
    unfold MultiAppConfig.load
    dsimp only
    rw [h1, h2]

/-- Claim C5 witness: migration and malformed-store behavior at
concrete inputs. -/
theorem c5_v1_migration_witness :
    MultiAppConfig.load (some ⟨"v1-bytes", some ProviderManager.defaultPM,
      none⟩) 42 =
      ⟨.ok (migrateV1 ProviderManager.defaultPM),
       some (v1BackupName 42, "v1-bytes"),
       some (migrateV1 ProviderManager.defaultPM)⟩ ∧
    MultiAppConfig.load (some ⟨"junk", none, none⟩) 7 =
      ⟨.error .MalformedStore, none, none⟩ := by
  have h1 := c5_v1_migration ProviderManager.defaultPM "v1-bytes" none 42
    (⟨"junk", none, none⟩ : StoreFile)
  have h2 := c5_v1_migration ProviderManager.defaultPM "v1-bytes" none 7
    (⟨"junk", none, none⟩ : StoreFile)
  exact ⟨h1.1, h2.2.2 rfl rfl⟩

/-- Claim C6 (code evaluated at the failing input): with targetEnv wsl
and distro "Ubuntu", update_provider's Claude branch writes the local
default settings path (config::get_claude_settings_path takes no
environment settings), while the environment resolver yields the WSL
UNC path; add_provider's branch, which does call the resolver, writes
the UNC path. The commit-then-persist ordering and the NotFound
behavior of update_provider do hold. -/
theorem c6_update_write_path_divergence :
    updateProviderClaudeWritePath "C:\\Users\\me" (fun _ => false) =
      "C:\\Users\\me\\.claude\\settings.json" ∧
    addProviderClaudeWritePath "C:\\Users\\me"
      (fun _ => Except.ok "/home/u")
      { show_in_tray := true, target_env := .wsl, wsl_distro := some "Ubuntu" }
      (fun _ => false) =
      .ok "\\\\wsl$\\Ubuntu\\home\\u\\.claude\\settings.json" ∧
    updateProviderClaudeWritePath "C:\\Users\\me" (fun _ => false) ≠
      "\\\\wsl$\\Ubuntu\\home\\u\\.claude\\settings.json" ∧
    updateProviderClaude sampleClaudeMgr (some sampleClaudeLive)
      sampleClaudeP false =
      ⟨sampleClaudeMgr, some sampleClaudeLive, false, .error .IOError⟩ ∧
    updateProviderClaude sampleClaudeMgr (some sampleClaudeLive)
      (Provider.withId "zz" "Z" .null none) true =
      ⟨sampleClaudeMgr, some sampleClaudeLive, false, .error .NotFound⟩ := by
  refine ⟨by decide, by decide, by decide, by decide, by decide⟩

/-- Claim C7 counterexample: the unrecognized kind string "gemini"
parses to Claude (the catch-all default) and get_providers on the
default store succeeds, instead of failing with AppKindNotFound. -/
theorem c7_unrecognized_kind_counterexample :
    AppType.ofStr "gemini" = .claude ∧
    getProviders MultiAppConfig.defaultCfg (AppType.ofStr "gemini") =
      .ok [] := by
  exact ⟨by decide, by decide⟩

/-- Claim C7 (amended): free-form kind strings are parsed at the
boundary into the closed two-variant AppType — case-insensitive
"codex" maps to Codex, every other string maps to Claude, the
default — so the core never receives a raw string; get_providers fails
with AppKindNotFound exactly when the parsed kind's key is missing
from the apps map, never merely because the input string was
unrecognized (on the default store every string is served). -/
theorem c7_kind_parsing_amended (s : String) (c : MultiAppConfig) :
    (AppType.ofStr s = .codex ∨ AppType.ofStr s = .claude) ∧
    (¬ strToLower s = "codex" → AppType.ofStr s = .claude) ∧
    (getProviders c (AppType.ofStr s) = .error .AppKindNotFound ↔
      c.getManager (AppType.ofStr s) = none) ∧
    getProviders MultiAppConfig.defaultCfg (AppType.ofStr s) = .ok [] := by
  refine ⟨?_, ?_, ?_, ?_⟩
  · unfold AppType.ofStr
    by_cases h : strToLower s = "codex"
    · rw [if_pos h]
      exact Or.inl rfl
    · rw [if_neg h]
      exact Or.inr rfl
  · intro h
    unfold AppType.ofStr
    rw [if_neg h]
  · unfold getProviders
    cases hm : MultiAppConfig.getManager c (AppType.ofStr s) with
    | none => simp
    | some mgr => simp
  · unfold AppType.ofStr
    by_cases h : strToLower s = "codex"
    · rw [if_pos h]
      rfl
    · rw [if_neg h]
      rfl

/-- Claim C7 witness: the amended parsing facts at a concrete
mixed-case unrecognized string. -/
theorem c7_kind_parsing_amended_witness :
    AppType.ofStr "GeMiNi" = .claude ∧
    getProviders MultiAppConfig.defaultCfg (AppType.ofStr "GeMiNi") =
      .ok [] := by
  have h := c7_kind_parsing_amended "GeMiNi" MultiAppConfig.defaultCfg
  exact ⟨h.2.1 (by decide), h.2.2.2⟩

/-- Claim C8 counterexample: switch_provider performs filesystem and
external-process calls while holding the ConfigStore lock — its event
trace has such a call between acquire and release. -/
theorem c8_lock_discipline_counterexample :
    fsUnderLock (switchProviderEvents true) 0 = true := by decide

/-- Claim C8 (amended): add_provider and update_provider follow the
short-lock discipline (no filesystem or external-process call while
the lock is held), but switch_provider acquires the lock before the
existence check and holds it across settings load, path resolution
(including the wsl.exe query), the backfill reads and the live writes,
releasing it only before persistence. -/
theorem c8_lock_discipline_amended (b : Bool) :
    fsUnderLock (addProviderEvents b) 0 = false ∧
    fsUnderLock (updateProviderEvents b) 0 = false ∧
    fsUnderLock (switchProviderEvents b) 0 = true := by
  cases b <;> exact ⟨rfl, rfl, rfl⟩

/-- Claim C8 witness: the amended lock-discipline facts at the
is-current / backfilling trace instance. -/
theorem c8_lock_discipline_amended_witness :
    fsUnderLock (addProviderEvents true) 0 = false ∧
    fsUnderLock (updateProviderEvents true) 0 = false := by
  have h := c8_lock_discipline_amended true
  exact ⟨h.1, h.2.1⟩

/-- Claim C9: import_default is a no-op success on a non-empty
registry (hence a second call in a row changes nothing), fails
LiveConfigMissing on an empty registry whose live file(s) are absent,
and otherwise creates provider "default" holding the live content,
makes it current, and persists. -/
theorem c9_import_default (mC mL : ProviderManager) (liveC : CodexLive)
    (liveL : Option Json) :
    (mL.providers.isEmpty = false →
      importDefaultClaude mL liveL = (mL, false, .ok ())) ∧
    (mC.providers.isEmpty = false →
      importDefaultCodex mC liveC = (mC, false, .ok ())) ∧
    (mL.providers.isEmpty = false →
      importDefaultClaude (importDefaultClaude mL liveL).1 liveL =
        (mL, false, .ok ())) ∧
    (mC.providers.isEmpty = false →
      importDefaultCodex (importDefaultCodex mC liveC).1 liveC =
        (mC, false, .ok ())) ∧
    (mL.providers.isEmpty = true → liveL = none →
      importDefaultClaude mL liveL = (mL, false, .error .LiveConfigMissing)) ∧
    (mC.providers.isEmpty = true → liveC.auth = none →
      importDefaultCodex mC liveC = (mC, false, .error .LiveConfigMissing)) ∧
    (∀ j, mL.providers.isEmpty = true → liveL = some j →
      importDefaultClaude mL liveL =
        ({ providers := aInsert mL.providers "default"
             (Provider.withId "default" "default" j none),
           current := "default" }, true, .ok ())) ∧
    (∀ a t, mC.providers.isEmpty = true → liveC = ⟨some a, some t⟩ →
      importDefaultCodex mC liveC =
        ({ providers := aInsert mC.providers "default"
             (Provider.withId "default" "default" (mkCodexPayload a t) none),
           current := "default" }, true, .ok ())) := by
  have hL : ∀ _ : mL.providers.isEmpty = false,
      importDefaultClaude mL liveL = (mL, false, .ok ()) := by
    intro h
    unfold importDefaultClaude
    rw [h]
    rfl
  have hC : ∀ _ : mC.providers.isEmpty = false,
      importDefaultCodex mC liveC = (mC, false, .ok ()) := by
    intro h
    unfold importDefaultCodex
    rw [h]
    rfl
  refine ⟨hL, hC, ?_, ?_, ?_, ?_, ?_, ?_⟩
  · intro h
    rw [hL h]
    exact hL h
  · intro h
    rw [hC h]
    exact hC h
  · intro h hl
    unfold importDefaultClaude
    rw [h, hl]
    rfl
  · intro h ha
    unfold importDefaultCodex
    rw [h, ha]
    rfl
  · intro j h hl
    unfold importDefaultClaude
    rw [h, hl]
    rfl
  · intro a t h hl
    unfold importDefaultCodex
    rw [h, hl]
    rfl

/-- Claim C9 witness: no-op on the non-empty sample registry, missing
live files on the empty registry, and a fresh import on the empty
registry with live content present. -/
theorem c9_import_default_witness :
    importDefaultClaude sampleClaudeMgr (some sampleClaudeLive) =
      (sampleClaudeMgr, false, .ok ()) ∧
    importDefaultCodex ProviderManager.defaultPM ⟨none, none⟩ =
      (ProviderManager.defaultPM, false, .error .LiveConfigMissing) ∧
    importDefaultClaude ProviderManager.defaultPM (some sampleClaudeLive) =
      ({ providers := aInsert ProviderManager.defaultPM.providers "default"
           (Provider.withId "default" "default" sampleClaudeLive none),
         current := "default" }, true, .ok ()) := by
  refine ⟨?_, ?_, ?_⟩
  · exact (c9_import_default ProviderManager.defaultPM sampleClaudeMgr
      ⟨none, none⟩ (some sampleClaudeLive)).1 rfl
  · exact (c9_import_default ProviderManager.defaultPM sampleClaudeMgr
      ⟨none, none⟩ (some sampleClaudeLive)).2.2.2.2.2.1 rfl rfl
  · exact (c9_import_default ProviderManager.defaultPM ProviderManager.defaultPM
      ⟨none, none⟩ (some sampleClaudeLive)).2.2.2.2.2.2.1
      sampleClaudeLive rfl rfl

/-- Claim C10: when current is the empty string, delete_provider with
the empty id hits the active-pointer check first and returns
InvalidOperation (cannot delete the provider in use), not NotFound,
although no provider with an empty id need exist. -/
theorem c10_delete_empty_current (m : ProviderManager) (fOk : Bool)
    (h : m.current = "") :
    deleteProvider m "" fOk = (m, false, .error .InvalidOperation) := by
  unfold deleteProvider
  rw [if_pos h]

/-- Claim C10 witness: the default registry (empty current, no
providers at all). -/
theorem c10_delete_empty_current_witness :
    deleteProvider ProviderManager.defaultPM "" true =
      (ProviderManager.defaultPM, false, .error .InvalidOperation) :=
  c10_delete_empty_current ProviderManager.defaultPM true rfl

end CCSwitch
